import Mathlib

/-!
Verification of the browser-flow session/action-execution core.

This file gives a shallow embedding of the session lifecycle and
action-execution engine of the repository (the `browser-service`
subsystem): the session manager (capacity, close, reconnect), the
selector resolver, the sequential action interpreter, the structured
data extractor, the navigation timeout policy and the login success
verification heuristic.  Each definition is translated from the
JavaScript source; asynchronous protocol effects (launching a browser,
dispatching a click, the outcome of one reconnection attempt) are
abstracted as explicit parameters, while all control flow, guards and
bookkeeping mirror the source line by line.
-/

namespace BrowserFlow

/-! ## Small helpers shared by the embedded code.

JavaScript truthiness for optional string-valued fields: a missing
field (`undefined`) and the empty string are both falsy. -/

def truthy : Option String → Bool
  | some s => !(s == "")
  | none => false

/-- Prefix test on character lists (structurally recursive so that the
kernel can evaluate it on concrete strings). -/
def strStartsWithList : List Char → List Char → Bool
  | _, [] => true
  | [], _ :: _ => false
  | c :: cs, d :: ds => c == d && strStartsWithList cs ds

/-- Substring test on character lists. -/
def containsSub : List Char → List Char → Bool
  | [], needle => needle.isEmpty
  | hay@(_ :: rest), needle => strStartsWithList hay needle || containsSub rest needle

/-- Substring test; models `String.prototype.includes` and the
fixed-alternative regexes (`/login|signin|auth|verify/i` etc.) that the
source matches against URLs and page text. -/
def strContains (hay needle : String) : Bool :=
  containsSub hay.data needle.data

/-- Lower-casing, models the `/i` regex flags and `toLowerCase()`. -/
def strToLower (s : String) : String :=
  ⟨s.data.map Char.toLower⟩

def isWhitespaceChar (c : Char) : Bool :=
  c == ' ' || c == '\t' || c == '\n' || c == '\r'

/-- Model of `String.prototype.trim`. -/
def trimChars (s : String) : String :=
  ⟨((s.data.dropWhile isWhitespaceChar).reverse.dropWhile isWhitespaceChar).reverse⟩

/-- First-match association lookup; models JS `Map.get` and the
object-property / `querySelector` first-match lookups of the source. -/
def lookupKey {α : Type} (k : String) : List (String × α) → Option α
  | [] => none
  | (k2, v) :: rest => if k2 == k then some v else lookupKey k rest

/-! ## Selector resolver

From `browser-service.js`, `_resolveSelector` (lines 35-68).  The page
URL has already been parsed by the runtime; the embedding receives the
parsed hostname as `Option String` (`none` models a `new URL(...)`
parse failure, which in the source falls through to the generic
selector). -/

/-- Domain normalization from `_resolveSelector`:
`url.hostname.replace(/^www\./, "")` strips one leading `www.`. -/
def stripWWW (host : String) : String :=
  if strStartsWithList host.data "www.".data then ⟨host.data.drop 4⟩ else host

/-- One site's entry of the selector table: abstract element name to
concrete locator.  A configured empty string is falsy in the source
(`this.websiteSelectors[domain][selectorName]`) and therefore a miss. -/
def tableLookup (table : List (String × List (String × String)))
    (host : String) (name : String) : Option String :=
  let domain := stripWWW host
  match lookupKey domain table with
  | none => none
  | some site =>
    match lookupKey name site with
    | none => none
    | some sel => if sel == "" then none else some sel

/-- Step 1 of `_resolveSelector`: try the predefined name against the
site selector table (`selectorName && typeof selectorName === "string"`,
then the per-domain lookup).  A URL parse failure (`host = none`) falls
through. -/
def predefinedLookup (table : List (String × List (String × String)))
    (host : Option String) (pn : Option String) : Option String :=
  match pn with
  | some n =>
    if n == "" then none
    else
      match host with
      | none => none
      | some h => tableLookup table h n
  | none => none

/-- Embedding of `_resolveSelector(pageUrl, action)`: the table entry for the
predefined name wins unconditionally; otherwise the action's generic
`selector` is used when truthy; otherwise `null`. -/
def resolveSelector (table : List (String × List (String × String)))
    (host : Option String) (predefinedName selector : Option String) : Option String :=
  match predefinedLookup table host predefinedName with
  | some sel => some sel
  | none => if truthy selector then selector else none

/-! ## Action interpreter

From `browser-service.js`, `executeActions` (lines 211-471).  An
`Action` keeps the fields the interpreter inspects; the effect of a
dispatched page-interactor primitive is abstracted as a parameter
`exec : Action → Except String String` (error or success message).
The overall-timeout check and the mid-sequence reconnection (lines
240-257) are not modelled: the claims below quantify over runs in which
the budget is not exceeded and the connection stays up. -/

structure OutputItem where
  name : String := ""
  type : String := ""
  selector : String := ""
  attr : Option String := none
deriving Repr, DecidableEq

structure Action where
  type : String
  selector : Option String := none
  predefinedName : Option String := none
  direction : Option String := none
  output : Option (List OutputItem) := none
  duration : Option String := none
deriving Repr, DecidableEq

/-- One recorded entry of the `results` array (line 265): the action
kind, the success flag and the human-readable message. -/
structure ActionResult where
  action : String
  success : Bool
  message : String
deriving Repr, DecidableEq

/-- Action kinds for which the interpreter attempts selector resolution
(line 277). -/
def selectorActionTypes : List String :=
  ["click", "type", "waitForSelector", "evaluate", "scroll"]

/-- Model of `parseInt(action.duration || "1000", 10)` with the NaN/negative
guard of the `delay` case (lines 389-392).  `String.toNat?` stands in
for `parseInt` on the digit strings the schema supplies. -/
def parseDelay : Option String → Option Nat
  | none => some 1000
  | some d => if d == "" then some 1000 else d.toNat?

/-- Body of one loop iteration of `executeActions` (lines 274-399):
selector resolution with its hard failure, the per-kind guards of the
`switch`, the `delay` duration check, and the `default` branch for an
unsupported kind.  Reaching the page-interactor dispatch is abstracted
as `exec a`. -/
def runAction (table : List (String × List (String × String)))
    (host : Option String) (exec : Action → Except String String)
    (a : Action) : Except String String :=
  let needsResolution :=
    selectorActionTypes.contains a.type && (truthy a.selector || truthy a.predefinedName)
  let resolved : Option String :=
    if needsResolution then resolveSelector table host a.predefinedName a.selector else none
  if needsResolution && resolved.isNone then
    .error ("Action type " ++ a.type ++
      " requires a valid selector, but none could be resolved from the provided action.")
  else if a.type == "navigate" then exec a
  else if a.type == "click" || a.type == "type" || a.type == "waitForSelector" then
    if resolved.isNone then .error (a.type ++ " action requires a valid selector.")
    else exec a
  else if a.type == "keyPress" || a.type == "waitForNavigation" then exec a
  else if a.type == "evaluate" then
    if resolved.isNone || a.output.isNone then
      .error "Evaluate action requires a resolvable selector/predefinedName and output (array) parameter."
    else exec a
  else if a.type == "scroll" then
    if a.direction == some "element" && resolved.isNone then
      .error "Scroll to element action requires a valid resolvable selector."
    else exec a
  else if a.type == "screenshot" || a.type == "solveCaptcha" then exec a
  else if a.type == "delay" then
    match parseDelay a.duration with
    | none => .error "Invalid delay duration."
    | some ms => .ok ("Waiting for " ++ toString ms ++ "ms")
  else .error ("Unsupported action type: " ++ a.type)

/-- The action loop of `executeActions` (lines 238-420) restricted to
its result-recording skeleton.  On success the result is pushed once by
the post-`try` step (line 418).  On failure the `catch` block pushes the
failed result (line 410) and then either `break`s (stop-on-error, line
413) or falls through to line 418, whose condition
`actionResult.success || !stopOnError` pushes the same failed result a
second time. -/
def execLoop (stopOnError : Bool) (step : Action → Except String String) :
    List Action → List ActionResult
  | [] => []
  | a :: rest =>
    match step a with
    | .ok msg =>
      { action := a.type, success := true, message := msg } :: execLoop stopOnError step rest
    | .error e =>
      let r : ActionResult := { action := a.type, success := false, message := "Error: " ++ e }
      if stopOnError then [r]
      else r :: r :: execLoop stopOnError step rest

/-- Shape of the value returned by `executeActions` (lines 432-438),
restricted to the fields governed by the loop.  `completedWithError`
is computed exactly as on line 437:
`results.some(r => !r.success && stopOnError)`. -/
structure ExecOutcome where
  results : List ActionResult
  completedWithError : Bool
deriving Repr, DecidableEq

def executeActions (table : List (String × List (String × String)))
    (host : Option String) (exec : Action → Except String String)
    (actions : List Action) (stopOnError : Bool) : ExecOutcome :=
  let results := execLoop stopOnError (runAction table host exec) actions
  { results := results
    completedWithError := results.any (fun r => !r.success && stopOnError) }

/-! ## Session manager

From `session-manager.js` (`SessionManager`) and `session.js`
(`Session`).  A pool entry keeps the lifecycle bookkeeping the claims
are about (the closing flag and the reconnect-attempt counter); the
browser/page/client handles and timers are protocol state abstracted
away.  The pool is a JS `Map`, embedded as an association list with
`Map.set` / `Map.delete` semantics. -/

/-- JS `Map.set` semantics: replace the value when the key is present, append
otherwise. -/
def mapSet {α : Type} (m : List (String × α)) (k : String) (v : α) :
    List (String × α) :=
  if m.any (fun p => p.1 == k) then
    m.map (fun p => if p.1 == k then (k, v) else p)
  else m ++ [(k, v)]

/-- JS `Map.delete` semantics: remove the key. -/
def mapDelete {α : Type} (m : List (String × α)) (k : String) :
    List (String × α) :=
  m.filter (fun p => !(p.1 == k))

/-- Lifecycle bookkeeping of one `Session` (session.js lines 8-18):
`isClosing` starts `false` and `reconnectAttempts` starts `0`.
`Session.closeResources` (line 58) sets `isClosing := true`. -/
structure SessionRec where
  isClosing : Bool := false
  reconnectAttempts : Nat := 0
deriving Repr, DecidableEq

/-- Manager state: the pool plus the configuration it was built with
(`config.maxSessions` defaults to 5, `config.connectionRetries` is 3). -/
structure SMState where
  sessions : List (String × SessionRec) := []
  maxSessions : Nat := 5
  connectionRetries : Nat := 3
deriving Repr, DecidableEq

/-- Which step of the post-launch setup fails, if any.  In the source
the reachable failure points inside the `try` of `createSession`
(lines 142-163) are `browser.newPage()` and
`page.target().createCDPSession()`; the CDP `Network.enable` /
`Page.enable` rejections and `applyStealthMeasures` errors are caught
and only logged, so they cannot fail the call. -/
inductive SetupOutcome
  | pageFail (e : String)
  | clientFail (e : String)
  | allOk
deriving Repr, DecidableEq

inductive CreateResult
  | capacityError (msg : String)
  | launchError (e : String)
  | setupError (e : String)
  | created (id : String)
deriving Repr, DecidableEq

/-- Resource ledger after a `createSession` call: whether the browser
connection and the CDP client are still open once the call returns.
The catch block (lines 164-171) detaches the client and closes the
browser, so every failure path ends with both released. -/
structure Resources where
  browserOpen : Bool
  clientAttached : Bool
deriving Repr, DecidableEq

/-- Embedding of `SessionManager.createSession` (lines 100-172): capacity guard,
launch, page/client setup with full teardown and map cleanup on a
setup error, store of the new entry on success.  The launcher outcome
and the setup outcome are parameters; the new session id (a fresh
uuid in the source) is the parameter `newId`. -/
def createSession (st : SMState) (newId : String)
    (launch : Except String Unit) (setup : SetupOutcome) :
    CreateResult × SMState × Resources :=
  if st.maxSessions ≤ st.sessions.length then
    (.capacityError "Maximum number of browser sessions reached", st, ⟨false, false⟩)
  else
    match launch with
    | .error e => (.launchError e, st, ⟨false, false⟩)
    | .ok _ =>
      match setup with
      | .pageFail e => (.setupError e, st, ⟨false, false⟩)
      | .clientFail e => (.setupError e, st, ⟨false, false⟩)
      | .allOk =>
        (.created newId,
          { st with sessions := mapSet st.sessions newId {} },
          ⟨true, true⟩)

/-- Embedding of `SessionManager.closeSession` (lines 280-304): absent id is a
no-op; an entry already marked closing is a no-op; otherwise the flag
is set, resources are released (errors tolerated) and the map entry is
removed in the `finally`.  The net state change of a completed close is
the removal of the entry. -/
def closeSession (st : SMState) (id : String) : SMState :=
  match lookupKey id st.sessions with
  | none => st
  | some s =>
    if s.isClosing then st
    else { st with sessions := mapDelete st.sessions id }

/-- Embedding of `SessionManager.getSession` (lines 180-211) restricted to the
lookup guard: absent or closing raises
`Session <id> not found or is closing.`; a present, connected session
is returned (with its activity refreshed, not modelled here).  The
disconnected-reconnect branch (lines 190-206) is protocol-dependent
and not needed by the claims below. -/
def getSession (st : SMState) (id : String) : Except String SessionRec :=
  match lookupKey id st.sessions with
  | none => .error ("Session " ++ id ++ " not found or is closing.")
  | some s =>
    if s.isClosing then .error ("Session " ++ id ++ " not found or is closing.")
    else .ok s

/-- Embedding of `SessionManager.reconnectSession` (lines 338-409).  Here `outcomes n`
is the result of the attempt whose counter value is `n` (launch + page
+ client succeeded or not).  Control flow follows the source: the
entry guard rejects an absent or closing session; a counter at the
ceiling force-closes and raises; otherwise the counter is incremented
and `session.closeResources(false)` is called -- which sets the
session's `isClosing` flag (session.js line 58).  On success handles
are swapped in place, the counter resets to 0 and `isClosing` is
cleared; on failure the source recurses for the next attempt (line
402) or, at the ceiling, calls `closeSession` and raises.  `fuel`
bounds the recursion depth of the embedding; every theorem below
supplies enough fuel that the `0` branch is unreachable. -/
def reconnectSession (fuel : Nat) (st : SMState) (id : String)
    (outcomes : Nat → Bool) : SMState × Except String Unit :=
  match fuel with
  | 0 => (st, .error "fuel exhausted")
  | fuel + 1 =>
    match lookupKey id st.sessions with
    | none => (st, .error "Cannot reconnect session: Not found or already closing.")
    | some s =>
      if s.isClosing then
        (st, .error "Cannot reconnect session: Not found or already closing.")
      else if st.connectionRetries ≤ s.reconnectAttempts then
        (closeSession st id, .error "Maximum reconnection attempts reached for session.")
      else
        let a := s.reconnectAttempts + 1
        let st1 : SMState :=
          { st with sessions := mapSet st.sessions id { s with reconnectAttempts := a, isClosing := true } }
        if outcomes a then
          ({ st1 with sessions := mapSet st1.sessions id { reconnectAttempts := 0, isClosing := false } },
            .ok ())
        else if a < st.connectionRetries then
          reconnectSession fuel st1 id outcomes
        else
          (closeSession st1 id, .error "Failed to reconnect session after all attempts.")

/-! ## Structured data extraction

From `page-interactor.js`, `extractStructuredData` (lines 443-529).
The `$$eval` callback runs over the elements matching the parent
selector; a parent element is embedded as its map from relative child
selector to the first matching child, a child as its inner text and
attribute list. -/

structure ChildElem where
  innerText : String := ""
  attrs : List (String × String) := []
deriving Repr, DecidableEq

structure ParentElem where
  children : List (String × ChildElem) := []
deriving Repr, DecidableEq

/-- Value of one named field (lines 479-507): `querySelector` on the
parent, then the per-kind extraction; a missing child, a missing
required attribute name or an unknown kind yield `null` (`none`). -/
def extractField (parent : ParentElem) (item : OutputItem) : Option String :=
  match lookupKey item.selector parent.children with
  | none => none
  | some child =>
    match item.type with
    | "text" => some (trimChars child.innerText)
    | "link" => lookupKey "href" child.attrs
    | "attribute" =>
      match item.attr with
      | some attrName =>
        if attrName == "" then none else lookupKey attrName child.attrs
      | none => none
    | _ => none

/-- Guard of line 476: `if (!name || !type || !selector) continue`. -/
def invalidItem (item : OutputItem) : Bool :=
  item.name == "" || item.type == "" || item.selector == ""

/-- One record (`itemData`, lines 471-508): fields are produced in the
declared order of the output configuration; a config item with a falsy
`name`, `type` or `selector` is skipped (line 476).  The JS object is
embedded as the association list of its insertions, faithful for
configurations without duplicate names. -/
def extractItem (parent : ParentElem) : List OutputItem → List (String × Option String)
  | [] => []
  | item :: rest =>
    if invalidItem item then extractItem parent rest
    else (item.name, extractField parent item) :: extractItem parent rest

/-- Embedding of `extractStructuredData` (lines 459-515): the processed count is
`min(elements.length, dataLimit)` for a positive numeric limit and all
elements otherwise; one record per processed parent; a record with
every field `null` is dropped (line 510). -/
def extractStructuredData (parents : List ParentElem)
    (config : List OutputItem) (limit : Option Int) :
    List (List (String × Option String)) :=
  let count : Nat :=
    match limit with
    | some l => if 0 < l then min parents.length l.toNat else parents.length
    | none => parents.length
  ((parents.take count).map (fun p => extractItem p config)).filter
    (fun itemData => itemData.any (fun f => f.2.isSome))

/-! ## Navigation timeout policy

From `page-interactor.js`, `navigate` (lines 51-80).  The protocol
navigation and the load-condition wait run concurrently
(`Promise.all`); the embedding keeps the decision logic of the
`TimeoutError` handler: given the requested `url` and the page's URL
after the timeout, does the call succeed (no raise) or raise? -/

def chromeError (u : String) : Bool :=
  strStartsWithList u.data "chrome-error://".data

/-- Outcome of `navigate` as a success flag: `true` when the call
returns normally, `false` when it raises.  Without a timeout the call
returns normally; on a load-condition timeout the source compares the
page's current URL against the *requested* `url` (lines 69-74). -/
def navigateOutcome (url currentUrl : String) (timedOut : Bool) : Bool :=
  if !timedOut then true
  else if !(currentUrl == url) && !chromeError currentUrl then true
  else if currentUrl == "about:blank" || chromeError currentUrl then false
  else true

/-- Modelled from the spec (for comparison with `navigateOutcome`):
"treats a load-condition timeout as non-fatal if the resulting URL
differs from the start URL and is not an error page -- otherwise
raises NavigationFailed".  `startUrl` is the page's URL before the
navigation was issued. -/
def navigateSpecOutcome (startUrl currentUrl : String) (timedOut : Bool) : Bool :=
  if !timedOut then true
  else !(currentUrl == startUrl) && !chromeError currentUrl

/-! ## Login success verification

From `login-handler.js`.  The page state the heuristic inspects is
embedded as explicit fields: the DOM probes
(`querySelector('input[type="password"]')`, the success-indicator
selector list, the `form .error` probe, the LinkedIn `#feed-tab-icon`
probe) become booleans, the URL and body text stay strings. -/

structure LoginPage where
  currentUrl : String := ""
  bodyText : String := ""
  hasPasswordField : Bool := false
  hasSuccessIndicator : Bool := false
  hasErrorElement : Bool := false
  feedIconVisible : Bool := false
deriving Repr, DecidableEq

/-- Alternatives of the `/login|signin|auth|verify/i` regex (line 328). -/
def authPatterns : List String := ["login", "signin", "auth", "verify"]

/-- Alternatives of the inline-error regex
`/incorrect|invalid|failed|wrong|unable to sign|couldn't find/i`
(line 337). -/
def errorPhrases : List String :=
  ["incorrect", "invalid", "failed", "wrong", "unable to sign", "couldn\x27t find"]

/-- Everything after the last slash; model of the expression
`loginUrl.split("/").pop()` (line 328). -/
def lastSegmentAux : List Char → List Char → List Char
  | [], acc => acc.reverse
  | c :: cs, acc => if c == '/' then lastSegmentAux cs [] else lastSegmentAux cs (c :: acc)

def lastSegment (u : String) : String :=
  ⟨lastSegmentAux u.data []⟩

/-- Embedding of `LoginHandler.verifyLoginSuccess` (lines 322-360): success iff no
inline error marker AND (URL changed away from auth OR password field
gone OR a post-login UI marker present), with the LinkedIn-specific
feed-icon check layered on when the target is `linkedin`. -/
def verifyLoginSuccess (pg : LoginPage) (loginUrl : String)
    (target : Option String) : Bool :=
  let urlIsDifferentAndNotAuth :=
    !strContains pg.currentUrl (lastSegment loginUrl) &&
      !(authPatterns.any (fun p => strContains (strToLower pg.currentUrl) p))
  let passwordFieldGone := !pg.hasPasswordField
  let hasLoginError :=
    pg.hasErrorElement &&
      (errorPhrases.any (fun p => strContains (strToLower pg.bodyText) p))
  let generic :=
    !hasLoginError &&
      (urlIsDifferentAndNotAuth || passwordFieldGone || pg.hasSuccessIndicator)
  if !generic then false
  else
    match target with
    | some t => if strToLower t == "linkedin" then pg.feedIconVisible else true
    | none => true

/-- Success flag of the result returned by `LoginHandler.login` when
the primary path completes without error (lines 210-218).  The call to
`verifyLoginSuccess` on line 210 is commented out in the source and the
flag is the literal `true` of line 211, independent of the page state. -/
def loginResultSuccess (_pg : LoginPage) (_loginUrl : String)
    (_target : Option String) : Bool :=
  true

/-! ## Concrete instances used by the closed theorems and witnesses -/

def demoTable : List (String × List (String × String)) :=
  [("example.com", [("searchInput", "#search")])]

def bogusAction : Action := { type := "bogus" }

def okExec : Action → Except String String := fun _ => .ok ""

/-- Pool with one fresh session, default configuration
(`maxSessions = 5`, `connectionRetries = 3`). -/
def oneSessionPool : SMState := { sessions := [("sess1", {})] }

/-- Pool at capacity: one session, `maxSessions = 1`. -/
def fullPool : SMState := { sessions := [("a", {})], maxSessions := 1 }

/-- Page state after a login attempt with a wrong password: the form
reloaded on the login URL with an inline error message and the password
field still present. -/
def wrongPasswordPage : LoginPage :=
  { currentUrl := "https://github.com/login"
    bodyText := "Incorrect username or password."
    hasPasswordField := true
    hasErrorElement := true }

def demoParent (i : Nat) : ParentElem :=
  { children := [("h2", { innerText := "Title " ++ toString i })] }

/-- Five parent elements, as in the extraction scenario. -/
def demoParents : List ParentElem :=
  [demoParent 1, demoParent 2, demoParent 3, demoParent 4, demoParent 5]

def demoConfig : List OutputItem :=
  [{ name := "heading", type := "text", selector := "h2" }]

/-! ## Association-map lemmas -/

theorem lookupKey_mapDelete {α : Type} (l : List (String × α)) (k : String) :
    lookupKey k (mapDelete l k) = none := by
  induction l with
  | nil => rfl
  | cons x xs ih =>
    by_cases h : (x.1 == k) = true
    · simpa [mapDelete, List.filter_cons, h] using ih
    · rw [Bool.not_eq_true] at h
      simpa [mapDelete, List.filter_cons, lookupKey, h] using ih

theorem lookupKey_mapDelete_of_none {α : Type} (l : List (String × α)) (k k2 : String)
    (h : lookupKey k l = none) : lookupKey k (mapDelete l k2) = none := by
  induction l with
  | nil => rfl
  | cons x xs ih =>
    obtain ⟨a, b⟩ := x
    by_cases hx : (a == k) = true
    · simp [lookupKey, hx] at h
    · rw [Bool.not_eq_true] at hx
      simp only [lookupKey, hx, Bool.false_eq_true, if_false] at h
      by_cases h2 : (a == k2) = true
      · simpa [mapDelete, List.filter_cons, h2] using ih h
      · rw [Bool.not_eq_true] at h2
        simpa [mapDelete, List.filter_cons, lookupKey, h2, hx] using ih h

theorem any_key_false_of_lookupKey_none {α : Type} (l : List (String × α)) (k : String)
    (h : lookupKey k l = none) : l.any (fun p => p.1 == k) = false := by
  induction l with
  | nil => rfl
  | cons x xs ih =>
    obtain ⟨a, b⟩ := x
    by_cases hx : (a == k) = true
    · simp [lookupKey, hx] at h
    · rw [Bool.not_eq_true] at hx
      simp only [lookupKey, hx, Bool.false_eq_true, if_false] at h
      simp [List.any_cons, hx, ih h]

theorem lookupKey_append_of_none {α : Type} (l l2 : List (String × α)) (k : String)
    (h : lookupKey k l = none) :
    lookupKey k (l ++ l2) = lookupKey k l2 := by
  induction l with
  | nil => rfl
  | cons x xs ih =>
    obtain ⟨a, b⟩ := x
    by_cases hx : (a == k) = true
    · simp [lookupKey, hx] at h
    · rw [Bool.not_eq_true] at hx
      simp only [lookupKey, hx, Bool.false_eq_true, if_false] at h
      rw [List.cons_append]
      simpa [lookupKey, hx] using ih h

theorem lookupKey_mapSet_fresh {α : Type} (l : List (String × α)) (k : String) (v : α)
    (h : lookupKey k l = none) : lookupKey k (mapSet l k v) = some v := by
  unfold mapSet
  rw [any_key_false_of_lookupKey_none l k h]
  simp only [Bool.false_eq_true, if_false]
  rw [lookupKey_append_of_none l _ k h]
  simp [lookupKey]

theorem mapDelete_length {α : Type} (l : List (String × α)) (k : String) :
    (mapDelete l k).length + l.countP (fun p => p.1 == k) = l.length := by
  induction l with
  | nil => rfl
  | cons x xs ih =>
    by_cases h : (x.1 == k) = true
    · simp only [mapDelete, List.filter_cons, List.countP_cons, h, Bool.not_true,
        Bool.false_eq_true, if_false, if_pos, List.length_cons] at *
      omega
    · rw [Bool.not_eq_true] at h
      simp only [mapDelete, List.filter_cons, List.countP_cons, h, Bool.not_false,
        Bool.false_eq_true, if_false, if_true, List.length_cons] at *
      omega

/-! ## Claim theorems -/

/-- C1 (code bug at the failing input): running a single failing action
with `stopOnError = false` records TWO identical failed results for the
one action -- the catch block pushes the failed result (line 410) and
the post-catch condition `actionResult.success || !stopOnError`
(line 418) pushes it again -- contradicting the source's own comment
"Add result only if it wasn't already added in the catch block" and the
claim that exactly one result is returned per action.  With
`stopOnError = true` the same input yields exactly one result. -/
theorem executeActions_duplicate_failed_result :
    (executeActions [] none okExec [bogusAction] false).results.length = 2
    ∧ [bogusAction].length = 1
    ∧ (executeActions [] none okExec [bogusAction] false).results.get? 0
        = (executeActions [] none okExec [bogusAction] false).results.get? 1
    ∧ (executeActions [] none okExec [bogusAction] true).results.length = 1 := by
  refine ⟨rfl, rfl, rfl, rfl⟩

/-- C2 (code bug at the failing input): on the primary login path the
returned success flag is the hard-coded `true` of line 211 (the
`verifyLoginSuccess` call on line 210 is commented out), so a login
attempt with a deliberately wrong password -- page still on the login
URL, password field present, inline error marker with "Incorrect ..."
text -- reports `success = true` even though the success-verification
heuristic evaluates to `false` on that page state. -/
theorem login_wrong_password_reports_success :
    loginResultSuccess wrongPasswordPage "https://github.com/login" none = true
    ∧ verifyLoginSuccess wrongPasswordPage "https://github.com/login" none = false := by
  refine ⟨rfl, by decide⟩

/-- C5 (code bug at the failing input): with the default ceiling of 3,
a session whose first reconnection attempt fails is never retried:
`closeResources` (called on line 354 before the attempt) sets the
session's `isClosing` flag, so the recursive retry (line 402) hits the
entry guard (line 340) and raises "Cannot reconnect ... already
closing" after ONE failure, with the pool entry left in place (counter
1, closing flag set) instead of the claimed behaviour -- three attempts,
then force-close, removal and a max-attempts error.  The success path
does reset the counter to zero. -/
theorem reconnectSession_bricks_after_first_failure :
    reconnectSession 8 oneSessionPool "sess1" (fun _ => false)
      = ({ sessions := [("sess1", { isClosing := true, reconnectAttempts := 1 })] },
         .error "Cannot reconnect session: Not found or already closing.")
    ∧ (lookupKey "sess1"
        (reconnectSession 8 oneSessionPool "sess1" (fun _ => false)).1.sessions).isSome = true
    ∧ reconnectSession 8 oneSessionPool "sess1" (fun _ => true)
      = ({ sessions := [("sess1", { isClosing := false, reconnectAttempts := 0 })] },
         .ok ()) := by
  refine ⟨rfl, rfl, rfl⟩

/-- C8 counterexample: one timed-out navigation refutes the claim that
the call succeeds exactly when the resulting URL differs from the START
URL and is not an error page.  The page starts at
`https://start.example/page`, navigation to `https://target.example/next`
is requested, the load condition times out and the URL is unchanged
(and is no error page): the claim requires a raised navigation failure
(`navigateSpecOutcome = false`), but the source compares against the
requested target URL (line 69) and returns normally
(`navigateOutcome = true`). -/
theorem navigate_timeout_counterexample :
    navigateOutcome "https://target.example/next" "https://start.example/page" true = true
    ∧ navigateSpecOutcome "https://start.example/page" "https://start.example/page" true = false := by
  refine ⟨rfl, rfl⟩

/-- C8 amended: when the load condition times out, `navigate` succeeds
exactly when the resulting URL is not an error page and it is not the
case that the resulting URL equals the REQUESTED target URL while being
`about:blank`; the comparison is against the requested URL, not the
start URL.  Without a timeout the call returns normally. -/
theorem navigateOutcome_timeout_policy :
    ∀ url currentUrl : String,
      navigateOutcome url currentUrl true
        = (!chromeError currentUrl && !(currentUrl == url && currentUrl == "about:blank"))
      ∧ navigateOutcome url currentUrl false = true := by
  intro url cur
  constructor
  · unfold navigateOutcome
    cases h1 : cur == url <;> cases h2 : chromeError cur <;>
      cases h3 : cur == "about:blank" <;> simp [h1, h2, h3]
  · rfl

/-- C9: when `createSession` fails after the browser connection was
obtained -- at page creation or at protocol-client creation, the two
reachable failure points of the setup `try` -- the catch block tears
down whatever was opened (client detached, browser closed), the error
propagates to the caller as a setup error, and the pool is exactly as
before the call, holding no entry for the half-initialized session. -/
theorem createSession_partial_failure
    (st : SMState) (newId e : String)
    (hcap : st.sessions.length < st.maxSessions) :
    createSession st newId (.ok ()) (.pageFail e)
      = (.setupError e, st, ⟨false, false⟩)
    ∧ createSession st newId (.ok ()) (.clientFail e)
      = (.setupError e, st, ⟨false, false⟩) := by
  refine ⟨?_, ?_⟩ <;> (unfold createSession; rw [if_neg (by omega)])

/-- Witness for C9 at a concrete input. -/
theorem createSession_partial_failure_witness :
    createSession {} "b" (.ok ()) (.pageFail "newPage failed")
      = (.setupError "newPage failed", {}, ⟨false, false⟩) :=
  (createSession_partial_failure {} "b" "newPage failed" (by decide)).1

/-- C10: in every value returned normally by `executeActions`, the
`completedWithError` flag equals `stopOnError AND (some recorded result
has success = false)` -- the literal meaning of line 437,
`results.some(r => !r.success && stopOnError)` -- and consequently is
`false` whenever the caller passes `stopOnError = false`, even if
recorded results failed. -/
theorem completedWithError_spec :
    ∀ (table : List (String × List (String × String))) (host : Option String)
      (exec : Action → Except String String) (actions : List Action)
      (stopOnError : Bool),
      (executeActions table host exec actions stopOnError).completedWithError
        = (stopOnError &&
            (executeActions table host exec actions stopOnError).results.any
              (fun r => !r.success))
      ∧ (stopOnError = false →
          (executeActions table host exec actions stopOnError).completedWithError = false) := by
  intro table host exec actions stopOnError
  have hany : ∀ (l : List ActionResult) (b : Bool),
      (l.any fun r => !r.success && b) = (b && l.any fun r => !r.success) := by
    intro l b
    induction l with
    | nil => cases b <;> rfl
    | cons x xs ih => cases b <;> simp_all [List.any_cons]
  constructor
  · simpa [executeActions] using hany (execLoop stopOnError (runAction table host exec) actions) stopOnError
  · intro h
    subst h
    simp [executeActions, hany]

/-- Witness for C10 at a concrete input: one failing action with
`stopOnError = false` yields a recorded failure but
`completedWithError = false`. -/
theorem completedWithError_spec_witness :
    (executeActions [] none okExec [bogusAction] false).completedWithError = false
    ∧ (executeActions [] none okExec [bogusAction] false).results.any
        (fun r => !r.success) = true := by
  refine ⟨(completedWithError_spec [] none okExec [bogusAction] false).2 rfl, by decide⟩

/-- Record fields are produced one per valid descriptor, in declared
order. -/
theorem extractItem_names (parent : ParentElem) (config : List OutputItem) :
    (extractItem parent config).map Prod.fst
      = (config.filter (fun item => !invalidItem item)).map (fun item => item.name) := by
  induction config with
  | nil => rfl
  | cons x xs ih =>
    cases h : invalidItem x with
    | true => simpa [extractItem, List.filter_cons, h] using ih
    | false => simpa [extractItem, List.filter_cons, h] using ih

/-- Every valid descriptor contributes its field to the record. -/
theorem extractItem_mem (parent : ParentElem) (config : List OutputItem)
    (item : OutputItem) (hmem : item ∈ config)
    (hvalid : invalidItem item = false) :
    (item.name, extractField parent item) ∈ extractItem parent config := by
  induction config with
  | nil => cases hmem
  | cons x xs ih =>
    rcases List.mem_cons.mp hmem with hx | hmem2
    · subst hx
      simp [extractItem, hvalid]
    · cases h : invalidItem x with
      | true => simpa [extractItem, h] using ih hmem2
      | false => simp [extractItem, h, ih hmem2]

/-- C7: for a positive limit, `extractStructuredData` evaluates only
the first `min(M, L)` matching parents and produces one record per
processed parent, dropping the records whose fields are all null; each
record carries one field per (valid) descriptor in declared order; a
missing child yields a null field; and when no processed record is
all-null, exactly `min(M, L)` records are returned -- in particular 2
records for limit 2 against 5 matching parents. -/
theorem extractStructuredData_limit
    (parents : List ParentElem) (config : List OutputItem) (L : Int) (hL : 0 < L) :
    extractStructuredData parents config (some L)
      = ((parents.take (min parents.length L.toNat)).map
          (fun p => extractItem p config)).filter
          (fun itemData => itemData.any (fun f => f.2.isSome))
    ∧ (∀ p : ParentElem,
        (extractItem p config).map Prod.fst
          = (config.filter (fun item => !invalidItem item)).map (fun item => item.name))
    ∧ (∀ (p : ParentElem) (item : OutputItem), item ∈ config →
        invalidItem item = false →
        lookupKey item.selector p.children = none →
        (item.name, (none : Option String)) ∈ extractItem p config)
    ∧ ((∀ p ∈ parents.take (min parents.length L.toNat),
          (extractItem p config).any (fun f => f.2.isSome) = true) →
        (extractStructuredData parents config (some L)).length
          = min parents.length L.toNat) := by
  have hmain : extractStructuredData parents config (some L)
      = ((parents.take (min parents.length L.toNat)).map
          (fun p => extractItem p config)).filter
          (fun itemData => itemData.any (fun f => f.2.isSome)) := by
    simp [extractStructuredData, hL]
  refine ⟨hmain, ?_, ?_, ?_⟩
  · intro p
    exact extractItem_names p config
  · intro p item hmem hvalid hlookup
    have hfield : extractField p item = none := by
      unfold extractField
      rw [hlookup]
    have hmm := extractItem_mem p config item hmem hvalid
    rwa [hfield] at hmm
  · intro hall
    rw [hmain]
    rw [List.filter_eq_self.mpr ?_]
    · simp [List.length_take]
    · intro r hr
      obtain ⟨p, hp, rfl⟩ := List.mem_map.mp hr
      exact hall p hp

/-- Witness for C7: the scenario of the spec -- limit 2 against a
parent locator matching 5 elements -- returns exactly 2 records. -/
theorem extractStructuredData_limit_witness :
    (0 : Int) < 2
    ∧ (extractStructuredData demoParents demoConfig (some 2)).length = 2 := by
  refine ⟨by decide, ?_⟩
  have h := (extractStructuredData_limit demoParents demoConfig 2 (by decide)).2.2.2
  exact (h (by decide)).trans (by decide)

/-- C3: selector resolution precedence.  (1) An abstract name whose
normalized domain (leading `www.` stripped) has a non-empty configured
table entry resolves to that entry unconditionally, whatever explicit
locator the action also carries.  (2) When the predefined-name branch
misses (no name, empty name, unparseable URL, or no usable table
entry), a truthy explicit locator is used.  (3) When neither yields a
usable value, resolution returns null and the interpreter raises for
every locator-requiring action kind instead of proceeding. -/
theorem resolveSelector_precedence
    (table : List (String × List (String × String))) (host : Option String)
    (h n sel g : String) (site : List (String × String)) (a : Action)
    (exec : Action → Except String String) :
    (a.predefinedName = some n → (n == "") = false →
      lookupKey (stripWWW h) table = some site → lookupKey n site = some sel →
      (sel == "") = false →
      resolveSelector table (some h) a.predefinedName a.selector = some sel)
    ∧ (predefinedLookup table host a.predefinedName = none → a.selector = some g →
      (g == "") = false →
      resolveSelector table host a.predefinedName a.selector = some g)
    ∧ (resolveSelector table host a.predefinedName a.selector = none →
      a.type ∈ ["click", "type", "waitForSelector", "evaluate"] →
      ∃ e, runAction table host exec a = .error e) := by
  refine ⟨?_, ?_, ?_⟩
  · intro hpn hn htab hsite hsel
    simp [resolveSelector, predefinedLookup, tableLookup, hpn, hn, htab, hsite, hsel]
  · intro hpl hsel hg
    simp [resolveSelector, hpl, truthy, hsel, hg]
  · intro hres htype
    simp only [List.mem_cons, List.not_mem_nil, or_false] at htype
    rcases htype with ht | ht | ht | ht <;>
      cases hb : (truthy a.selector || truthy a.predefinedName) <;>
        simp [runAction, selectorActionTypes, ht, hb, hres]

/-- Witness for C3 at concrete inputs: the table entry beats the
explicit locator; the explicit locator is used on a table miss; a
click action with neither raises. -/
theorem resolveSelector_precedence_witness :
    resolveSelector demoTable (some "www.example.com")
        (some "searchInput") (some "#fallback") = some "#search"
    ∧ resolveSelector demoTable (some "www.example.com")
        none (some "#fallback") = some "#fallback"
    ∧ ∃ e, runAction demoTable (some "www.example.com") okExec
        { type := "click" } = .error e := by
  refine ⟨?_, ?_, ?_⟩
  · exact (resolveSelector_precedence demoTable (some "www.example.com")
      "www.example.com" "searchInput" "#search" "" [("searchInput", "#search")]
      { type := "click", selector := some "#fallback", predefinedName := some "searchInput" }
      okExec).1 rfl rfl (by decide) (by decide) rfl
  · exact (resolveSelector_precedence demoTable (some "www.example.com")
      "www.example.com" "" "" "#fallback" []
      { type := "click", selector := some "#fallback" } okExec).2.1 rfl rfl rfl
  · exact (resolveSelector_precedence demoTable (some "www.example.com")
      "www.example.com" "" "" "" [] { type := "click" } okExec).2.2 rfl (by simp)

/-- C4: with the pool at the configured maximum, `createSession` fails
with the capacity error and stores nothing (the state is unchanged and
no resource is left open); after `closeSession` removes one session, a
slot is free and a subsequent `createSession` (whose launch and setup
succeed) succeeds and stores the new entry. -/
theorem createSession_capacity
    (st : SMState) (newId freeId : String) (s : SessionRec)
    (launch : Except String Unit) (setup : SetupOutcome)
    (hlookup : lookupKey freeId st.sessions = some s)
    (hnotclosing : s.isClosing = false)
    (hcount : st.sessions.countP (fun p => p.1 == freeId) = 1)
    (hfull : st.sessions.length = st.maxSessions)
    (hfresh : lookupKey newId st.sessions = none) :
    createSession st newId launch setup
      = (.capacityError "Maximum number of browser sessions reached", st, ⟨false, false⟩)
    ∧ (closeSession st freeId).sessions.length < st.maxSessions
    ∧ (createSession (closeSession st freeId) newId (.ok ()) .allOk).1 = .created newId
    ∧ lookupKey newId
        (createSession (closeSession st freeId) newId (.ok ()) .allOk).2.1.sessions
        = some {} := by
  have hclose : closeSession st freeId
      = { st with sessions := mapDelete st.sessions freeId } := by
    unfold closeSession
    rw [hlookup]
    simp [hnotclosing]
  have hdel := mapDelete_length st.sessions freeId
  have hlen : (mapDelete st.sessions freeId).length + 1 = st.sessions.length := by
    omega
  have hfreshdel : lookupKey newId (mapDelete st.sessions freeId) = none :=
    lookupKey_mapDelete_of_none st.sessions newId freeId hfresh
  refine ⟨?_, ?_, ?_, ?_⟩
  · unfold createSession
    rw [if_pos (by omega)]
  · rw [hclose]
    simp only
    omega
  · rw [hclose]
    unfold createSession
    rw [if_neg (by simp only; omega)]
  · rw [hclose]
    unfold createSession
    rw [if_neg (by simp only; omega)]
    simpa using lookupKey_mapSet_fresh (mapDelete st.sessions freeId) newId {} hfreshdel

/-- Witness for C4 at a concrete input: a pool of capacity 1 holding
one session rejects a create, and after closing that session the
create succeeds. -/
theorem createSession_capacity_witness :
    createSession fullPool "b" (.ok ()) .allOk
      = (.capacityError "Maximum number of browser sessions reached", fullPool, ⟨false, false⟩)
    ∧ (createSession (closeSession fullPool "a") "b" (.ok ()) .allOk).1 = .created "b" := by
  have hw := createSession_capacity fullPool "b" "a" {} (.ok ()) .allOk
    (by decide) rfl (by decide) rfl (by decide)
  exact ⟨hw.1, hw.2.2.1⟩

/-- C6: closing a session id a second time is a no-op -- both when the
entry is already gone (double close is idempotent) and when the entry
is still present but already marked closing -- and after a completed
close, `getSession` on that id fails with the not-found error. -/
theorem closeSession_idempotent (st : SMState) (id : String) :
    closeSession (closeSession st id) id = closeSession st id
    ∧ (∀ s, lookupKey id st.sessions = some s → s.isClosing = true →
        closeSession st id = st)
    ∧ (∀ s, lookupKey id st.sessions = some s → s.isClosing = false →
        getSession (closeSession st id) id
          = .error ("Session " ++ id ++ " not found or is closing.")) := by
  refine ⟨?_, ?_, ?_⟩
  · cases hl : lookupKey id st.sessions with
    | none =>
      have h1 : closeSession st id = st := by
        unfold closeSession
        rw [hl]
      rw [h1]
      exact h1
    | some s =>
      cases hcl : s.isClosing with
      | false =>
        have h1 : closeSession st id
            = { st with sessions := mapDelete st.sessions id } := by
          unfold closeSession
          rw [hl]
          simp [hcl]
        rw [h1]
        unfold closeSession
        simp only
        rw [lookupKey_mapDelete]
      | true =>
        have h1 : closeSession st id = st := by
          unfold closeSession
          rw [hl]
          simp [hcl]
        rw [h1]
        exact h1
  · intro s hl hcl
    unfold closeSession
    rw [hl]
    simp [hcl]
  · intro s hl hcl
    have h1 : closeSession st id
        = { st with sessions := mapDelete st.sessions id } := by
      unfold closeSession
      rw [hl]
      simp [hcl]
    rw [h1]
    unfold getSession
    simp only
    rw [lookupKey_mapDelete]

/-- Witness for C6 at a concrete input: after closing the only session
of a pool, a `getSession` on its id returns the not-found error. -/
theorem closeSession_idempotent_witness :
    getSession (closeSession fullPool "a") "a"
      = .error ("Session " ++ "a" ++ " not found or is closing.") :=
  (closeSession_idempotent fullPool "a").2.2 {} (by decide) rfl

end BrowserFlow
